import Mathlib

/-!
Shallow embedding of the doppler-cli secret-fetch pipeline.

Source files embedded:
  * `src/unnamed/part_001` (package `http`): `isSuccess`, `isRetry`,
    `performRequest` and its retry loop.
  * `src/cmd/run.go` (package `cmd`): `getSecrets`, `readFallbackFile`,
    and the environment-injection loop of `runCmd`.
  * `src/unnamed/part_000` (package `api`): the response-parsing fragment
    of `GetAPISecrets`.

External effects (the network, the file system, JSON decoding of raw
bytes, the process environment) are passed in as explicit parameters, so
every definition is a pure, executable function of its inputs.
-/

namespace DopplerCli

/-! ### HTTP layer (`src/unnamed/part_001`) -/

/-- `func isSuccess(statusCode int) bool`:
`statusCode >= 200 && statusCode <= 299`. -/
def isSuccess (statusCode : Nat) : Bool :=
  decide (200 ≤ statusCode ∧ statusCode ≤ 299)

/-- `func isRetry(statusCode int) bool`:
`(statusCode == 429) || (statusCode >= 100 && statusCode <= 199) || (statusCode >= 500 && statusCode <= 599)`. -/
def isRetry (statusCode : Nat) : Bool :=
  decide (statusCode = 429 ∨ (100 ≤ statusCode ∧ statusCode ≤ 199) ∨
    (500 ≤ statusCode ∧ statusCode ≤ 599))

/-- Result of one call of `client.Do(req)` inside the retry closure of
`performRequest`: either a transport-level error (`err != nil`), or an
HTTP response with a status code and body bytes. -/
inductive Outcome where
  | transportErr : Outcome
  | resp (status : Nat) (body : List Nat) : Outcome
deriving DecidableEq, Repr

/-- The error value held in `requestErr` after the retry loop finishes:
either the transport error wrapped in `StopRetry` by the closure, or the
`errors.New("Request failed")` produced for a non-2xx status (both on a
terminal non-retryable status and on retry exhaustion). -/
inductive RErr where
  | transport : RErr
  | requestFailed : RErr
deriving DecidableEq, Repr

/-- Final state of the retry loop of `performRequest`: the value of
`requestErr`, the value of the `response` variable (the last response
stored by the closure, `none` = Go `nil`), and how many attempts (calls
of `client.Do`) were made in total. -/
structure RetryOutcome where
  requestErr : Option RErr
  response : Option (Nat × List Nat)
  attempts : Nat
deriving DecidableEq, Repr

/-- Modelled from the spec: the generic retry helper
`retry(attempts, sleep, f)` (not under `src/`; §4.2 "up to 5 attempts",
fixed inter-attempt delay, `StopRetry` and a 2xx stop immediately, a
retryable status is retried while attempts remain), combined with the
closure body of `performRequest` (`src/unnamed/part_001` lines 141-167):
a transport error returns `StopRetry{err}` without touching `response`;
otherwise the response is stored, a 2xx status returns `nil`, a
retryable status returns a plain error (retried), and any other status
returns `StopRetry`. `env i` is the outcome of the `i`-th call of
`client.Do`; `idx` is the index of the next attempt; `attempts` is the
remaining attempt budget; `resp` is the current `response` variable. -/
def retryAux (env : Nat → Outcome) (idx : Nat) (attempts : Nat)
    (resp : Option (Nat × List Nat)) : RetryOutcome :=
  match attempts with
  | 0 => ⟨some RErr.requestFailed, resp, idx⟩
  | a + 1 =>
    match env idx with
    | Outcome.transportErr => ⟨some RErr.transport, resp, idx + 1⟩
    | Outcome.resp s b =>
      if isSuccess s then ⟨none, some (s, b), idx + 1⟩
      else if isRetry s then
        if a = 0 then ⟨some RErr.requestFailed, some (s, b), idx + 1⟩
        else retryAux env (idx + 1) a (some (s, b))
      else ⟨some RErr.requestFailed, some (s, b), idx + 1⟩

/-- The error component of `performRequest`'s return value. -/
inductive ReqError where
  /-- the transport error from `client.Do` -/
  | transport : ReqError
  /-- `errors.New("Request failed")` -/
  | requestFailed : ReqError
  /-- `json.Unmarshal` of the error body failed -/
  | unmarshal : ReqError
  /-- `errors.New(sb.String())`: the `messages` entries joined by newlines -/
  | api (message : String) : ReqError
deriving DecidableEq, Repr

/-- The `strings.Builder` loop of `performRequest` lines 192-198: the
entries of `errResponse.Messages` joined with `"\n"` separators. -/
def joinMessages (msgs : List String) : String :=
  String.intercalate "\n" msgs

/-- `func performRequest(...) (int, []byte, error)`
(`src/unnamed/part_001` lines 110-201), from the retry loop on: `env i`
is the outcome of the `i`-th `client.Do` call, and `parseError`
abstracts `json.Unmarshal(body, &errResponse)` on the final body
(`none` = unmarshal error, `some msgs` = the decoded `Messages` array).
Reading the response body is assumed to succeed (an `ioutil.ReadAll`
failure is an IO event outside this model). -/
def performRequest (env : Nat → Outcome)
    (parseError : List Nat → Option (List String)) :
    Nat × Option (List Nat) × Option ReqError :=
  match (retryAux env 0 5 none).requestErr, (retryAux env 0 5 none).response with
  | some RErr.transport, none => (0, none, some ReqError.transport)
  | some RErr.requestFailed, none => (0, none, some ReqError.requestFailed)
  | none, none => (0, none, none)
  | none, some (s, b) => (s, some b, none)
  | some _, some (s, b) =>
    match parseError b with
    | none => (s, none, some ReqError.unmarshal)
    | some msgs => (s, some b, some (ReqError.api (joinMessages msgs)))

/-- Total number of `client.Do` calls made by `performRequest`. -/
def attemptsMade (env : Nat → Outcome) : Nat :=
  (retryAux env 0 5 none).attempts

/-! ### Orchestrator (`src/cmd/run.go`) -/

/-- A fatal exit through `utils.Err` inside `getSecrets` /
`readFallbackFile`, identified by the call site. `utils.Err` itself is
not under `src/`; it is modelled from the spec (§7: every error
"terminates with a non-zero status") and forced by `run.go`'s own
control flow, which keeps using `response` after `utils.Err(err)` and
so only makes sense if the call never returns. -/
inductive FatalErr where
  /-- `utils.Err(err)` after `GetDeploySecrets` failed with no fallback file -/
  | fetchFatal : FatalErr
  /-- `utils.Err(err)` after `ioutil.WriteFile` of the fallback file failed -/
  | writeFatal : FatalErr
  /-- "Unable to read fallback file" in `readFallbackFile` -/
  | fallbackReadFatal : FatalErr
  /-- "Unable to parse fallback file" in `readFallbackFile` -/
  | fallbackParseFatal : FatalErr
  /-- "Unable to parse response" in `getSecrets` -/
  | responseParseFatal : FatalErr
deriving DecidableEq, Repr

/-- What one invocation of `getSecrets` did and produced. `result` is
`Except.error e` when the process exits fatally through `utils.Err`,
`Except.ok secrets` when the secrets mapping is returned. -/
structure SecretsTrace where
  /-- whether `api.GetDeploySecrets` (the network call) was invoked -/
  networkCalled : Bool
  /-- whether `ioutil.WriteFile(fallbackPath, response, 0600)` was invoked -/
  wroteFallback : Bool
  /-- whether `readFallbackFile` (hence `ioutil.ReadFile`) was invoked -/
  readFallback : Bool
  result : Except FatalErr (List (String × String))
deriving Repr

/-- `func readFallbackFile(path string) map[string]string`
(`src/cmd/run.go` lines 122-137). `fs` abstracts `ioutil.ReadFile`
(`none` = read error) and `parse` abstracts `api.ParseDeploySecrets`
(not under `src/`; modelled from the spec: the payload "parses into a
mapping", a parse failure is an error, here `none`). -/
def readFallbackFile (fs : String → Option (List Nat))
    (parse : List Nat → Option (List (String × String)))
    (path : String) : Except FatalErr (List (String × String)) :=
  match fs path with
  | none => Except.error FatalErr.fallbackReadFatal
  | some response =>
    match parse response with
    | none => Except.error FatalErr.fallbackParseFatal
    | some secrets => Except.ok secrets

/-- `func getSecrets(cmd, localConfig, fallbackPath, fallbackReadonly, fallbackOnly)`
(`src/cmd/run.go` lines 87-120). `fetch` abstracts
`api.GetDeploySecrets` (not under `src/`; modelled from the spec: the
network fetch returns the raw payload bytes or an error), `fs` abstracts
`ioutil.ReadFile`, `writeOk` abstracts whether
`ioutil.WriteFile(fallbackPath, response, 0600)` succeeds, and `parse`
abstracts `api.ParseDeploySecrets`. -/
def getSecrets (fetch : Except Unit (List Nat))
    (fs : String → Option (List Nat)) (writeOk : Bool)
    (parse : List Nat → Option (List (String × String)))
    (fallbackPath : String) (fallbackReadonly : Bool)
    (fallbackOnly : Bool) : SecretsTrace :=
  let useFallbackFile : Bool := fallbackPath ≠ ""
  if useFallbackFile ∧ fallbackOnly then
    ⟨false, false, true, readFallbackFile fs parse fallbackPath⟩
  else
    match fetch with
    | Except.error _ =>
      if ¬ useFallbackFile then
        ⟨true, false, false, Except.error FatalErr.fetchFatal⟩
      else
        ⟨true, false, true, readFallbackFile fs parse fallbackPath⟩
    | Except.ok response =>
      if useFallbackFile ∧ ¬ fallbackReadonly then
        if writeOk then
          match parse response with
          | none => ⟨true, true, false, Except.error FatalErr.responseParseFatal⟩
          | some secrets => ⟨true, true, false, Except.ok secrets⟩
        else
          ⟨true, true, false, Except.error FatalErr.writeFatal⟩
      else
        match parse response with
        | none => ⟨true, false, false, Except.error FatalErr.responseParseFatal⟩
        | some secrets => ⟨true, false, false, Except.ok secrets⟩

/-- `excludedKeys := []string\x7b"PATH", "PS1", "HOME"\x7d`
(`src/cmd/run.go` line 64). -/
def excludedKeys : List String := ["PATH", "PS1", "HOME"]

/-- The environment-injection loop of `runCmd` (`src/cmd/run.go` lines
63-77): starting from `os.Environ()` (here `env`), append
`fmt.Sprintf("%s=%s", name, value)` for every secret whose name is not
in `excludedKeys`. Go map iteration order is unspecified, so the
secrets mapping is taken as a list in some iteration order. -/
def mergeEnv (env : List String) (secrets : List (String × String)) : List String :=
  secrets.foldl
    (fun acc kv =>
      if excludedKeys.contains kv.1 then acc else acc ++ [kv.1 ++ "=" ++ kv.2])
    env

/-! ### API response parsing (`src/unnamed/part_000`, `GetAPISecrets`) -/

/-- A decoded JSON document, standing for the `interface\x7b\x7d` values
produced by `json.Unmarshal` (an object decodes to
`map[string]interface\x7b\x7d`, a string to `string`, and so on). -/
inductive JSON where
  | null : JSON
  | bool (b : Bool) : JSON
  | num (n : Int) : JSON
  | str (s : String) : JSON
  | arr (elems : List JSON) : JSON
  | obj (fields : List (String × JSON)) : JSON

/-- Outcome of the response-handling fragment of `GetAPISecrets`
(`src/unnamed/part_000` lines 237-252). -/
inductive APISecretsResult where
  /-- `json.Unmarshal(response, &result)` returned an error, handled by
  `utils.Err` — an error value, not a crash -/
  | unmarshalErr : APISecretsResult
  /-- a runtime interface type assertion failed: the process panics -/
  | panicked : APISecretsResult
  /-- the `computed` map: entries `(name, rawValue, computedValue)` -/
  | ok (secrets : List (String × String × String)) : APISecretsResult
deriving DecidableEq, Repr

/-- One iteration of the loop over `result["variables"]`:
`val := secret.(map[string]interface\x7b\x7d)` then `val["raw"].(string)`
and `val["computed"].(string)`. `none` = a type assertion failed
(absent key gives `nil`, and asserting on `nil` or a non-string also
fails). -/
def parseComputedSecret (key : String) (secret : JSON) :
    Option (String × String × String) :=
  match secret with
  | JSON.obj fields =>
    match fields.lookup "raw", fields.lookup "computed" with
    | some (JSON.str r), some (JSON.str c) => some (key, r, c)
    | _, _ => none
  | _ => none

/-- The response-handling fragment of `GetAPISecrets`
(`src/unnamed/part_000` lines 237-252), on an already-decoded JSON
document. A top-level JSON object (or `null`, which `json.Unmarshal`
accepts into a map leaving it `nil`) unmarshals without error; any
other document makes `json.Unmarshal` fail into the `utils.Err` path.
After that, `result["variables"].(map[string]interface\x7b\x7d)` and the
per-entry assertions panic on any shape mismatch. -/
def getAPISecretsParse (doc : JSON) : APISecretsResult :=
  match doc with
  | JSON.obj fields =>
    match fields.lookup "variables" with
    | some (JSON.obj vars) =>
      match vars.mapM (fun kv => parseComputedSecret kv.1 kv.2) with
      | some secrets => APISecretsResult.ok secrets
      | none => APISecretsResult.panicked
    | _ => APISecretsResult.panicked
  | JSON.null => APISecretsResult.panicked
  | _ => APISecretsResult.unmarshalErr

/-! ### Theorems -/

/-- Claim C2: classification of an observed HTTP status inside the retry
loop: a 2xx status stops the loop immediately with success; a 429, 1xx
or 5xx status causes a retry (the loop continues with the next attempt,
while attempts remain); every other status stops the loop immediately
with the final "Request failed" error. -/
theorem retry_status_classification (env : Nat → Outcome) (idx a : Nat)
    (r : Option (Nat × List Nat)) (s : Nat) (b : List Nat)
    (henv : env idx = Outcome.resp s b) :
    ((200 ≤ s ∧ s ≤ 299) →
      retryAux env idx (a + 1) r = ⟨none, some (s, b), idx + 1⟩) ∧
    ((s = 429 ∨ (100 ≤ s ∧ s ≤ 199) ∨ (500 ≤ s ∧ s ≤ 599)) → 1 ≤ a →
      retryAux env idx (a + 1) r = retryAux env (idx + 1) a (some (s, b))) ∧
    (¬ (200 ≤ s ∧ s ≤ 299) →
      ¬ (s = 429 ∨ (100 ≤ s ∧ s ≤ 199) ∨ (500 ≤ s ∧ s ≤ 599)) →
      retryAux env idx (a + 1) r = ⟨some RErr.requestFailed, some (s, b), idx + 1⟩) := by
  refine ⟨?_, ?_, ?_⟩
  · intro h
    have hs : isSuccess s = true := by
      simp only [isSuccess, decide_eq_true_eq]
      exact h
    simp [retryAux, henv, hs]
  · intro h ha
    have hs : isSuccess s = false := by
      simp only [isSuccess, decide_eq_false_iff_not]
      omega
    have hr : isRetry s = true := by
      simp only [isRetry, decide_eq_true_eq]
      omega
    have ha' : a ≠ 0 := by omega
    simp [retryAux, henv, hs, hr, ha']
  · intro hns hnr
    have hs : isSuccess s = false := by
      simp only [isSuccess, decide_eq_false_iff_not]
      exact hns
    have hr : isRetry s = false := by
      simp only [isRetry, decide_eq_false_iff_not]
      exact hnr
    simp [retryAux, henv, hs, hr]

/-- Witness for `retry_status_classification` at status 503 with
attempts remaining: the loop continues with the next attempt. -/
theorem retry_status_classification_witness :
    retryAux (fun _ => Outcome.resp 503 []) 0 2 none =
      retryAux (fun _ => Outcome.resp 503 []) 1 1 (some (503, [])) :=
  (retry_status_classification (fun _ => Outcome.resp 503 []) 0 1 none 503 []
    rfl).2.1 (by omega) (by omega)

/-- Claim C3: four 503 responses followed by one 200 give exactly 5
attempts and a successful result; five consecutive 503 responses give
exactly 5 attempts (no 6th — the conclusion is independent of what the
environment would return beyond attempt 5) and an error result carrying
status 503. -/
theorem retry_termination (env1 env2 : Nat → Outcome) (b body : List Nat)
    (parse : List Nat → Option (List String))
    (h1 : ∀ i, i < 4 → env1 i = Outcome.resp 503 b)
    (h1' : env1 4 = Outcome.resp 200 body)
    (h2 : ∀ i, i < 5 → env2 i = Outcome.resp 503 b) :
    (retryAux env1 0 5 none = ⟨none, some (200, body), 5⟩ ∧
      performRequest env1 parse = (200, some body, none) ∧
      attemptsMade env1 = 5) ∧
    (retryAux env2 0 5 none = ⟨some RErr.requestFailed, some (503, b), 5⟩ ∧
      (performRequest env2 parse).1 = 503 ∧
      (performRequest env2 parse).2.2 ≠ none ∧
      attemptsMade env2 = 5) := by
  have hs503 : isSuccess 503 = false := rfl
  have hr503 : isRetry 503 = true := rfl
  have hs200 : isSuccess 200 = true := rfl
  have e0 := h1 0 (by omega)
  have e1 := h1 1 (by omega)
  have e2 := h1 2 (by omega)
  have e3 := h1 3 (by omega)
  have f0 := h2 0 (by omega)
  have f1 := h2 1 (by omega)
  have f2 := h2 2 (by omega)
  have f3 := h2 3 (by omega)
  have f4 := h2 4 (by omega)
  have r1 : retryAux env1 0 5 none = ⟨none, some (200, body), 5⟩ := by
    simp [retryAux, e0, e1, e2, e3, h1', hs503, hr503, hs200]
  have r2 : retryAux env2 0 5 none = ⟨some RErr.requestFailed, some (503, b), 5⟩ := by
    simp [retryAux, f0, f1, f2, f3, f4, hs503, hr503]
  refine ⟨⟨r1, ?_, ?_⟩, r2, ?_⟩
  · simp [performRequest, r1]
  · simp [attemptsMade, r1]
  · cases hp : parse b <;>
      simp [performRequest, attemptsMade, r2, hp]

/-- Witness for `retry_termination` on concrete environments. -/
theorem retry_termination_witness :
    (retryAux (fun i => if i < 4 then Outcome.resp 503 [] else Outcome.resp 200 [1])
        0 5 none = ⟨none, some (200, [1]), 5⟩ ∧
      performRequest (fun i => if i < 4 then Outcome.resp 503 [] else Outcome.resp 200 [1])
        (fun _ => none) = (200, some [1], none) ∧
      attemptsMade (fun i => if i < 4 then Outcome.resp 503 [] else Outcome.resp 200 [1]) = 5) ∧
    (retryAux (fun _ => Outcome.resp 503 []) 0 5 none =
        ⟨some RErr.requestFailed, some (503, []), 5⟩ ∧
      (performRequest (fun _ => Outcome.resp 503 []) (fun _ => none)).1 = 503 ∧
      (performRequest (fun _ => Outcome.resp 503 []) (fun _ => none)).2.2 ≠ none ∧
      attemptsMade (fun _ => Outcome.resp 503 []) = 5) :=
  retry_termination (fun i => if i < 4 then Outcome.resp 503 [] else Outcome.resp 200 [1])
    (fun _ => Outcome.resp 503 []) [] [1] (fun _ => none)
    (fun i hi => by simp [hi]) (by simp) (fun i _ => rfl)

/-- Concrete run refuting claim C4 as stated: the first attempt gets a
retryable 503 response, the second attempt fails with a transport
error. The retry loop does stop at once, but because an earlier
attempt had stored a response, `performRequest` returns that response's
status 503 (with the error-body handling), not status 0, a nil body
and the transport error. -/
theorem transport_error_after_response :
    (fun i => if i = 0 then Outcome.resp 503 [7] else Outcome.transportErr) 1 =
      Outcome.transportErr ∧
    performRequest (fun i => if i = 0 then Outcome.resp 503 [7] else Outcome.transportErr)
      (fun _ => none) = (503, none, some ReqError.unmarshal) ∧
    performRequest (fun i => if i = 0 then Outcome.resp 503 [7] else Outcome.transportErr)
      (fun _ => none) ≠ (0, none, some ReqError.transport) := by
  refine ⟨rfl, rfl, ?_⟩
  decide

/-- Claim C4 (amended): an attempt failing with a transport-level error
stops the retry loop immediately with no further attempts; when no
earlier attempt produced an HTTP response (in particular on the first
attempt), the client returns status code 0, a nil body and the
transport error. -/
theorem transport_error_stops :
    (∀ (env : Nat → Outcome) (idx a : Nat) (r : Option (Nat × List Nat)),
      env idx = Outcome.transportErr →
      retryAux env idx (a + 1) r = ⟨some RErr.transport, r, idx + 1⟩) ∧
    (∀ (env : Nat → Outcome) (parse : List Nat → Option (List String)),
      env 0 = Outcome.transportErr →
      performRequest env parse = (0, none, some ReqError.transport)) := by
  have h1 : ∀ (env : Nat → Outcome) (idx a : Nat) (r : Option (Nat × List Nat)),
      env idx = Outcome.transportErr →
      retryAux env idx (a + 1) r = ⟨some RErr.transport, r, idx + 1⟩ := by
    intro env idx a r h
    simp [retryAux, h]
  refine ⟨h1, ?_⟩
  intro env parse h
  have := h1 env 0 4 none h
  simp [performRequest, this]

/-- Witness for `transport_error_stops`: an environment failing with a
transport error on every attempt. -/
theorem transport_error_stops_witness :
    retryAux (fun _ => Outcome.transportErr) 0 5 none =
      ⟨some RErr.transport, none, 1⟩ ∧
    performRequest (fun _ => Outcome.transportErr) (fun _ => none) =
      (0, none, some ReqError.transport) :=
  ⟨transport_error_stops.1 (fun _ => Outcome.transportErr) 0 4 none rfl,
    transport_error_stops.2 (fun _ => Outcome.transportErr) (fun _ => none) rfl⟩

/-- Claim C6: when the retry loop ends with an error and the `response`
variable holds an HTTP response, the response body is read; if
decoding the JSON error body succeeds, the body is returned alongside
an error whose message is the `messages` entries joined with newlines;
if decoding fails, the status code is returned with a nil body and the
decode error. -/
theorem exhausted_response_error (env : Nat → Outcome)
    (parse : List Nat → Option (List String)) (s : Nat) (b : List Nat) (e : RErr)
    (hErr : (retryAux env 0 5 none).requestErr = some e)
    (hResp : (retryAux env 0 5 none).response = some (s, b)) :
    (parse b = none → performRequest env parse = (s, none, some ReqError.unmarshal)) ∧
    (∀ msgs, parse b = some msgs →
      performRequest env parse =
        (s, some b, some (ReqError.api (String.intercalate "\n" msgs)))) := by
  constructor
  · intro hp
    cases e <;> simp [performRequest, hErr, hResp, hp]
  · intro msgs hp
    cases e <;> simp [performRequest, hErr, hResp, hp, joinMessages]

/-- Witness for `exhausted_response_error`: five 503 responses with an
error body whose `messages` decode to two entries. -/
theorem exhausted_response_error_witness :
    performRequest (fun _ => Outcome.resp 503 [9]) (fun _ => some ["a", "b"]) =
      (503, some [9], some (ReqError.api (String.intercalate "\n" ["a", "b"]))) :=
  (exhausted_response_error (fun _ => Outcome.resp 503 [9])
    (fun _ => some ["a", "b"]) 503 [9] RErr.requestFailed rfl rfl).2 ["a", "b"] rfl

/-- Concrete run for claim C1: `fallbackOnly` is set but no fallback
path is configured (`fallbackPath = ""`), the network is reachable and
returns payload `[1]`. `getSecrets` performs the network call, never
touches the fallback file, and returns the network secrets — not the
fallback file's contents. -/
theorem fallback_only_without_path_calls_network :
    (getSecrets (Except.ok [1]) (fun _ => some [2]) true
      (fun bs => if bs = [1] then some [("A", "net")] else some [("A", "file")])
      "" false true).networkCalled = true ∧
    (getSecrets (Except.ok [1]) (fun _ => some [2]) true
      (fun bs => if bs = [1] then some [("A", "net")] else some [("A", "file")])
      "" false true).readFallback = false ∧
    (getSecrets (Except.ok [1]) (fun _ => some [2]) true
      (fun bs => if bs = [1] then some [("A", "net")] else some [("A", "file")])
      "" false true).result = Except.ok [("A", "net")] :=
  ⟨rfl, rfl, rfl⟩

/-- Concrete run refuting claim C5 as stated: a successful fetch with a
fallback path configured, `fallbackReadonly` false and a failing
fallback-file write. The write is attempted, its failure goes through
`utils.Err` and is fatal: the result is the write error, not the
fetched secrets mapping. -/
theorem fallback_write_failure_is_fatal :
    (getSecrets (Except.ok [1]) (fun _ => none) false
      (fun _ => some [("A", "x")]) "f" false false).wroteFallback = true ∧
    (getSecrets (Except.ok [1]) (fun _ => none) false
      (fun _ => some [("A", "x")]) "f" false false).result =
      Except.error FatalErr.writeFatal :=
  ⟨rfl, rfl⟩

/-- Claim C5 (amended): on a successful fetch with a fallback path
configured and `fallbackReadonly` false, the payload is written to the
fallback file; if the write succeeds the payload is parsed and the
secrets mapping returned, but a write failure is fatal — the invocation
terminates with the write error and the fetched secrets are not
returned. -/
theorem fallback_write_on_success (response : List Nat)
    (fs : String → Option (List Nat)) (writeOk : Bool)
    (parse : List Nat → Option (List (String × String))) (path : String)
    (hpath : path ≠ "") :
    (getSecrets (Except.ok response) fs writeOk parse path false false).wroteFallback
      = true ∧
    (writeOk = false →
      (getSecrets (Except.ok response) fs writeOk parse path false false).result =
        Except.error FatalErr.writeFatal) ∧
    (writeOk = true → ∀ secrets, parse response = some secrets →
      (getSecrets (Except.ok response) fs writeOk parse path false false).result =
        Except.ok secrets) := by
  refine ⟨?_, ?_, ?_⟩
  · cases writeOk with
    | false => simp [getSecrets, hpath]
    | true => cases hp : parse response <;> simp [getSecrets, hpath, hp]
  · intro hw
    subst hw
    simp [getSecrets, hpath]
  · intro hw secrets hsec
    subst hw
    simp [getSecrets, hpath, hsec]

/-- Witness for `fallback_write_on_success`: path `"f"`, failing write. -/
theorem fallback_write_on_success_witness :
    (getSecrets (Except.ok [1]) (fun _ => some [2]) false
      (fun _ => some [("A", "x")]) "f" false false).wroteFallback = true ∧
    (getSecrets (Except.ok [1]) (fun _ => some [2]) false
      (fun _ => some [("A", "x")]) "f" false false).result =
      Except.error FatalErr.writeFatal :=
  ⟨(fallback_write_on_success [1] (fun _ => some [2]) false
      (fun _ => some [("A", "x")]) "f" (by decide)).1,
    (fallback_write_on_success [1] (fun _ => some [2]) false
      (fun _ => some [("A", "x")]) "f" (by decide)).2.1 rfl⟩

/-- Claim C8: when the network call happens (`fallbackOnly` unset, or no
path so the fallback-only branch is skipped) and the fetch fails: with
a fallback path configured, the fallback file is read and parsed and
its contents (or its own fatal error) returned; with no path, the
fetch error is fatal and the fallback file is never read. -/
theorem fetch_failure_uses_fallback (fs : String → Option (List Nat))
    (writeOk : Bool) (parse : List Nat → Option (List (String × String)))
    (path : String) (ro only : Bool) (hrun : path = "" ∨ only = false) :
    (getSecrets (Except.error ()) fs writeOk parse path ro only).networkCalled
      = true ∧
    (path ≠ "" →
      (getSecrets (Except.error ()) fs writeOk parse path ro only).readFallback
          = true ∧
      (getSecrets (Except.error ()) fs writeOk parse path ro only).result =
        readFallbackFile fs parse path) ∧
    (path = "" →
      (getSecrets (Except.error ()) fs writeOk parse path ro only).readFallback
          = false ∧
      (getSecrets (Except.error ()) fs writeOk parse path ro only).result =
        Except.error FatalErr.fetchFatal) := by
  rcases hrun with hp | ho
  · subst hp
    exact ⟨rfl, fun h => absurd rfl h, fun _ => ⟨rfl, rfl⟩⟩
  · subst ho
    by_cases hp : path = ""
    · subst hp
      exact ⟨rfl, fun h => absurd rfl h, fun _ => ⟨rfl, rfl⟩⟩
    · refine ⟨?_, fun _ => ⟨?_, ?_⟩, fun h => absurd h hp⟩ <;>
        simp [getSecrets, hp]

/-- Witness for `fetch_failure_uses_fallback`: failed fetch, fallback
path `"f"` whose file holds bytes parsing to one secret. -/
theorem fetch_failure_uses_fallback_witness :
    (getSecrets (Except.error ()) (fun _ => some [2]) true
      (fun _ => some [("A", "file")]) "f" false false).networkCalled = true ∧
    (getSecrets (Except.error ()) (fun _ => some [2]) true
      (fun _ => some [("A", "file")]) "f" false false).readFallback = true ∧
    (getSecrets (Except.error ()) (fun _ => some [2]) true
      (fun _ => some [("A", "file")]) "f" false false).result =
      readFallbackFile (fun _ => some [2]) (fun _ => some [("A", "file")]) "f" := by
  have h := fetch_failure_uses_fallback (fun _ => some [2]) true
    (fun _ => some [("A", "file")]) "f" false false (Or.inr rfl)
  exact ⟨h.1, (h.2.1 (by decide)).1, (h.2.1 (by decide)).2⟩

/-- The injection loop keeps the pre-existing environment as-is and
appends exactly the formatted non-reserved secrets, in order. -/
theorem mergeEnv_eq (env0 : List String) (secrets : List (String × String)) :
    mergeEnv env0 secrets =
      env0 ++ (secrets.filter fun kv => ! excludedKeys.contains kv.1).map
        (fun kv => kv.1 ++ "=" ++ kv.2) := by
  induction secrets generalizing env0 with
  | nil => simp [mergeEnv]
  | cons kv rest ih =>
    by_cases hm : kv.1 ∈ excludedKeys
    · have step : mergeEnv env0 (kv :: rest) = mergeEnv env0 rest := by
        simp [mergeEnv, List.foldl_cons, hm]
      rw [step, ih]
      simp [List.filter_cons, hm]
    · have step : mergeEnv env0 (kv :: rest) =
          mergeEnv (env0 ++ [kv.1 ++ "=" ++ kv.2]) rest := by
        simp [mergeEnv, List.foldl_cons, hm]
      rw [step, ih]
      simp [List.filter_cons, hm, List.append_assoc]

/-- Claim C7: the child environment is the pre-existing process
environment followed by the formatted secrets whose names survive the
reserved-name filter; no injected entry is named `PATH`, `PS1` or
`HOME`; and every secret with a non-reserved name is injected. -/
theorem env_injection (env0 : List String) (secrets : List (String × String)) :
    mergeEnv env0 secrets =
      env0 ++ (secrets.filter fun kv => ! excludedKeys.contains kv.1).map
        (fun kv => kv.1 ++ "=" ++ kv.2) ∧
    (∀ kv ∈ secrets.filter fun kv => ! excludedKeys.contains kv.1,
      kv.1 ≠ "PATH" ∧ kv.1 ≠ "PS1" ∧ kv.1 ≠ "HOME") ∧
    (∀ kv ∈ secrets, kv.1 ≠ "PATH" → kv.1 ≠ "PS1" → kv.1 ≠ "HOME" →
      (kv.1 ++ "=" ++ kv.2) ∈ mergeEnv env0 secrets) := by
  refine ⟨mergeEnv_eq env0 secrets, ?_, ?_⟩
  · intro kv hkv
    rw [List.mem_filter] at hkv
    have hc : kv.1 ∉ excludedKeys := by
      simpa using hkv.2
    simp only [excludedKeys, List.mem_cons, List.not_mem_nil, or_false,
      not_or] at hc
    exact ⟨hc.1, hc.2.1, hc.2.2⟩
  · intro kv hkv h1 h2 h3
    rw [mergeEnv_eq env0 secrets]
    refine List.mem_append_right _ ?_
    rw [List.mem_map]
    refine ⟨kv, ?_, rfl⟩
    rw [List.mem_filter]
    refine ⟨hkv, ?_⟩
    simp [excludedKeys, h1, h2, h3]

/-- Witness for `env_injection`: one reserved secret (`PATH`) and one
ordinary secret, over a one-entry pre-existing environment. -/
theorem env_injection_witness :
    mergeEnv ["USER=joe"] [("PATH", "p"), ("A", "1")] =
      ["USER=joe"] ++
        (([("PATH", "p"), ("A", "1")].filter
          fun kv => ! excludedKeys.contains kv.1).map
            (fun kv => kv.1 ++ "=" ++ kv.2)) ∧
    ("A" ++ "=" ++ "1") ∈ mergeEnv ["USER=joe"] [("PATH", "p"), ("A", "1")] :=
  ⟨(env_injection ["USER=joe"] [("PATH", "p"), ("A", "1")]).1,
    (env_injection ["USER=joe"] [("PATH", "p"), ("A", "1")]).2.2 ("A", "1")
      (by simp) (by decide) (by decide) (by decide)⟩

/-- Claim C10: the response handling of `GetAPISecrets` is not total
over well-formed JSON: a valid JSON object without a `variables`
object, or whose entry lacks a string `raw` field, fails a runtime type
assertion (a panic) rather than producing an error value; a well-shaped
document parses normally. -/
theorem getAPISecrets_parse_panics :
    getAPISecretsParse (JSON.obj [("success", JSON.bool true)]) =
      APISecretsResult.panicked ∧
    getAPISecretsParse
      (JSON.obj [("variables",
        JSON.obj [("KEY", JSON.obj [("computed", JSON.str "y")])])]) =
      APISecretsResult.panicked ∧
    getAPISecretsParse
      (JSON.obj [("variables",
        JSON.obj [("KEY",
          JSON.obj [("raw", JSON.str "x"), ("computed", JSON.str "y")])])]) =
      APISecretsResult.ok [("KEY", "x", "y")] :=
  ⟨rfl, rfl, rfl⟩

end DopplerCli
